import Mathlib

/-!
Verification of the per-frame biomechanical form-assessment engine
(`ExerciseAnalyzer` in `src/frontend/app/api/progress/patient/[patientId]/route.ts`).

Shallow embedding conventions:
* TS `number` coordinates are modelled as real numbers `ℝ`.
* A landmark frame is a total function `Fin 33 → Landmark` (the engine's
  33-point MediaPipe layout contract; all indices used by the code are < 33).
* The analyzer's mutable `frameHistory` field is modelled by explicit state
  passing: `analyzeExercise` takes the history before the call and returns the
  updated history next to the assessment.
* JavaScript `NaN` arising in `calculateAngle` (the only place the engine can
  produce `0/0`) is modelled by `Option ℝ`: `none` stands for `NaN`.  JS
  `Math.min`/`Math.max`/`Math.acos` propagate `NaN`, and the denominator
  `mag1 * mag2` is zero exactly when the numerator `dot` is also zero, so the
  whole expression is `NaN` iff `mag1 * mag2 = 0`.
* Scores are integers (`ℤ`); the source only ever combines integer constants.
-/

namespace Forma

/-- One tracked body point (TS `PoseLandmark`): normalized coordinates. -/
structure Landmark where
  x : ℝ
  y : ℝ
  z : ℝ
  visibility : ℝ

/-- One complete 33-landmark snapshot (a valid frame per the spec's contract). -/
def Frame : Type := Fin 33 → Landmark

/-- TS `BiomechanicalAnalysis`.  `jointAngles` is the `Record<string, number>`
map, as an association list; angle values use `Option ℝ` with `none` = NaN. -/
structure BiomechanicalAnalysis where
  jointAngles : List (String × Option ℝ)
  symmetry : ℝ
  stability : ℝ
  range : ℝ
  timing : ℝ

/-- TS `FormAssessment` (the spec's `AssessmentResult`). -/
structure FormAssessment where
  score : ℤ
  criticalErrors : List String
  minorIssues : List String
  strengths : List String
  phase : String
  biomechanics : BiomechanicalAnalysis

/-- Source `calculateFormScore` (route.ts:584-591):
`score = 100; score -= 25*|critical|; score -= 10*|minor|; score += 5*|strengths|;
return Math.max(0, Math.min(100, score))`. -/
def calculateFormScore (criticalErrors minorIssues strengths : List String) : ℤ :=
  let score : ℤ := 100
  let score := score - 25 * (criticalErrors.length : ℤ)
  let score := score - 10 * (minorIssues.length : ℤ)
  let score := score + 5 * (strengths.length : ℤ)
  max 0 (min 100 score)

/-- Modelled from the spec: the scoring formula
`clamp(100 − 25×c − 10×m + 5×s, 0, 100)` as a function of the three list
lengths alone (spec §4.5).  Used to compare the source's `calculateFormScore`
against the spec's stated policy. -/
def specScore (c m s : ℕ) : ℤ :=
  max 0 (min 100 (100 - 25 * (c : ℤ) - 10 * (m : ℤ) + 5 * (s : ℤ)))

/-- Source history update (route.ts:62-65):
`this.frameHistory.push(landmarks); if (length > maxHistoryFrames) shift()`
with `maxHistoryFrames = 30`. -/
def pushFrame (hist : List Frame) (lm : Frame) : List Frame :=
  let hist1 := hist ++ [lm]
  if hist1.length > 30 then hist1.tail else hist1

/-- Source `getDefaultAssessment` (route.ts:593-608). -/
def getDefaultAssessment : FormAssessment :=
  { score := 75
    criticalErrors := []
    minorIssues := []
    strengths := ["Exercise detected"]
    phase := "unknown"
    biomechanics :=
      { jointAngles := []
        symmetry := 0.8
        stability := 0.7
        range := 0.8
        timing := 1.0 } }

noncomputable section
open Classical

/-- Source `calculateAngle` (route.ts:333-343).  `none` models the JS `NaN`
produced when `mag1 * mag2 = 0` (then `cos = 0/0 = NaN`, which JS
`Math.min`/`Math.max`/`Math.acos` all propagate).  When the denominator is
nonzero the JS value is finite and the clamp applies, so the result is a real
angle in degrees. -/
def calculateAngle (p1 p2 p3 : Landmark) : Option ℝ :=
  let v1x := p1.x - p2.x
  let v1y := p1.y - p2.y
  let v2x := p3.x - p2.x
  let v2y := p3.y - p2.y
  let dot := v1x * v2x + v1y * v2y
  let mag1 := Real.sqrt (v1x * v1x + v1y * v1y)
  let mag2 := Real.sqrt (v2x * v2x + v2y * v2y)
  if mag1 * mag2 = 0 then none
  else some (Real.arccos (max (-1) (min 1 (dot / (mag1 * mag2)))) * (180 / Real.pi))

/-- Source `calculateDistance` (route.ts:345-347); defined by the source but
never called by any analyzer. -/
def calculateDistance (p1 p2 : Landmark) : ℝ :=
  Real.sqrt ((p1.x - p2.x) ^ 2 + (p1.y - p2.y) ^ 2)

/-- JS `Math.atan2(y, x)`, i.e. the argument of the complex number `x + y·i`
(range `(−π, π]`, `atan2 0 0 = 0`, exactly the ECMAScript convention for
finite inputs). -/
def atan2 (y x : ℝ) : ℝ := Complex.arg (↑x + ↑y * Complex.I)

/-- Source `calculateHipAngle`: shoulder (11), hip (23), knee (25). -/
def calculateHipAngle (lm : Frame) : Option ℝ := calculateAngle (lm 11) (lm 23) (lm 25)

/-- Source `calculateKneeAngle`: hip (23), knee (25), ankle (27). -/
def calculateKneeAngle (lm : Frame) : Option ℝ := calculateAngle (lm 23) (lm 25) (lm 27)

/-- Source `calculateAnkleAngle`: knee (25), ankle (27), foot (31). -/
def calculateAnkleAngle (lm : Frame) : Option ℝ := calculateAngle (lm 25) (lm 27) (lm 31)

/-- Source `calculateShoulderAngle`: elbow (13), shoulder (11), hip (23). -/
def calculateShoulderAngle (lm : Frame) : Option ℝ := calculateAngle (lm 13) (lm 11) (lm 23)

/-- Source `calculateElbowAngle`: shoulder (11), elbow (13), wrist (15). -/
def calculateElbowAngle (lm : Frame) : Option ℝ := calculateAngle (lm 11) (lm 13) (lm 15)

/-- Source `calculateWristAngle`: elbow (13), wrist (15), index finger (19). -/
def calculateWristAngle (lm : Frame) : Option ℝ := calculateAngle (lm 13) (lm 15) (lm 19)

/-- Source `calculateSpinalAngle`: shoulder (11), hip (23), knee (25). -/
def calculateSpinalAngle (lm : Frame) : Option ℝ := calculateAngle (lm 11) (lm 23) (lm 25)

/-- JS comparison `a > b` where `a` may be NaN (`none`): comparisons with NaN
are false.  Used for the push-up elbow check, whose operand comes from
`calculateAngle`. -/
def optGt (a : Option ℝ) (b : ℝ) : Prop :=
  match a with
  | none => False
  | some v => v > b

/-- Source `analyzeKneeAlignment` (route.ts:386-397): returns the `valgus`
field `max(|knee25.x − ankle27.x|, |knee26.x − ankle28.x|) × 100`. -/
def analyzeKneeAlignment (lm : Frame) : ℝ :=
  let leftValgus := |(lm 25).x - (lm 27).x| * 100
  let rightValgus := |(lm 26).x - (lm 28).x| * 100
  max leftValgus rightValgus

/-- Source `calculateBackAngle` (route.ts:399-406):
`|atan2(shoulder11.y − hip23.y, shoulder11.x − hip23.x) · 180/π|`. -/
def calculateBackAngle (lm : Frame) : ℝ :=
  |atan2 ((lm 11).y - (lm 23).y) ((lm 11).x - (lm 23).x) * (180 / Real.pi)|

/-- Source `calculateSquatDepth` (route.ts:408-415):
`min(100, |hip23.y − knee25.y| × 100)`. -/
def calculateSquatDepth (lm : Frame) : ℝ :=
  min 100 (|(lm 23).y - (lm 25).y| * 100)

/-- Source `calculateBilateralSymmetry` (route.ts:417-431): average of
`max(0, 1 − |Δy|·10)` over the six left/right landmark pairs. -/
def calculateBilateralSymmetry (lm : Frame) : ℝ :=
  let leftSide := [lm 11, lm 13, lm 15, lm 23, lm 25, lm 27]
  let rightSide := [lm 12, lm 14, lm 16, lm 24, lm 26, lm 28]
  let symmetryScore :=
    (leftSide.zip rightSide).foldl
      (fun acc p => acc + max 0 (1 - |p.1.y - p.2.y| * 10)) 0
  symmetryScore / (leftSide.length : ℝ)

/-- Source `calculateStability` (route.ts:433-453): positional variance of all
33 landmarks over the last 5 history frames; neutral 0.5 when fewer than 5
frames exist. -/
def calculateStability (hist : List Frame) : ℝ :=
  if hist.length < 5 then 0.5
  else
    let recentFrames := hist.drop (hist.length - 5)
    let totalVariance :=
      ∑ i : Fin 33,
        (let positions := recentFrames.map (fun fr => fr i)
         let avgX := (positions.foldl (fun s p => s + p.x) 0) / (positions.length : ℝ)
         let avgY := (positions.foldl (fun s p => s + p.y) 0) / (positions.length : ℝ)
         (positions.foldl (fun s p => s + (p.x - avgX) ^ 2 + (p.y - avgY) ^ 2) 0) /
           (positions.length : ℝ))
    max 0 (1 - totalVariance * 100)

/-- Source `detectSquatPhase` (route.ts:456-467).  The history passed in is the
post-append history (the analyzer appends the current frame before dispatch),
so the last of the sliced 3 frames is the current frame.  The JS index accesses
`recent[2]`/`recent[0]` are in range because the guard ensures at least 3
frames; `Option.getD _ 0` mirrors them totally. -/
def detectSquatPhase (hist : List Frame) : String :=
  if hist.length < 3 then "starting"
  else
    let recentHipHeights := (hist.drop (hist.length - 3)).map (fun fr => (fr 23).y)
    let trend : ℝ := (recentHipHeights[2]?).getD 0 - (recentHipHeights[0]?).getD 0
    if trend > 0.01 then "descending"
    else if trend < -0.01 then "ascending"
    else "bottom"

/-- Source `detectPushupPhase` (route.ts:469-480): same as the squat detector
but tracking the shoulder (index 11). -/
def detectPushupPhase (hist : List Frame) : String :=
  if hist.length < 3 then "starting"
  else
    let recentHeights := (hist.drop (hist.length - 3)).map (fun fr => (fr 11).y)
    let trend : ℝ := (recentHeights[2]?).getD 0 - (recentHeights[0]?).getD 0
    if trend > 0.01 then "descending"
    else if trend < -0.01 then "ascending"
    else "bottom"

/-- Source `detectLungePhase` (route.ts:482-493): identical to the squat
detector (hip, index 23). -/
def detectLungePhase (hist : List Frame) : String :=
  if hist.length < 3 then "starting"
  else
    let recentHeights := (hist.drop (hist.length - 3)).map (fun fr => (fr 23).y)
    let trend : ℝ := (recentHeights[2]?).getD 0 - (recentHeights[0]?).getD 0
    if trend > 0.01 then "descending"
    else if trend < -0.01 then "ascending"
    else "bottom"

/-- Source `analyzePushupAlignment` (route.ts:496-506): the `hipSag` field
`|hip23.y − (shoulder11.y + (ankle27.y − shoulder11.y)·0.6)| × 100`. -/
def analyzePushupAlignment (lm : Frame) : ℝ :=
  let expectedHipY := (lm 11).y + ((lm 27).y - (lm 11).y) * 0.6
  |(lm 23).y - expectedHipY| * 100

/-- Source `calculatePushupROM` (route.ts:508-517): 50 below 10 frames of
history, else `(max − min) × 100` of the shoulder heights over the whole
history (the folds start from the first element, matching JS
`Math.max(...)`/`Math.min(...)` on the nonempty list). -/
def calculatePushupROM (hist : List Frame) : ℝ :=
  if hist.length < 10 then 50
  else
    let shoulderHeights := hist.map (fun fr => (fr 11).y)
    let maxHeight := shoulderHeights.foldl max ((shoulderHeights[0]?).getD 0)
    let minHeight := shoulderHeights.foldl min ((shoulderHeights[0]?).getD 0)
    (maxHeight - minHeight) * 100

/-- Source `analyzePlankAlignment` (route.ts:519-529): the `deviation` field,
same formula as `analyzePushupAlignment`. -/
def analyzePlankAlignment (lm : Frame) : ℝ :=
  let expectedHipY := (lm 11).y + ((lm 27).y - (lm 11).y) * 0.6
  |(lm 23).y - expectedHipY| * 100

/-- Source `calculateHipPosition` (route.ts:531-534): the `height` field. -/
def calculateHipPosition (lm : Frame) : ℝ := (lm 23).y

/-- Source `analyzeFrontKneeAlignment` (route.ts:536-542): the `overAnkle`
field `|knee25.x − ankle27.x| × 100`. -/
def analyzeFrontKneeAlignment (lm : Frame) : ℝ :=
  |(lm 25).x - (lm 27).x| * 100

/-- Source `calculateTorsoLean` (route.ts:544-550): note the swapped
`atan2(Δx, Δy)` arguments relative to `calculateBackAngle`. -/
def calculateTorsoLean (lm : Frame) : ℝ :=
  |atan2 ((lm 11).x - (lm 23).x) ((lm 11).y - (lm 23).y) * (180 / Real.pi)|

/-- Source `calculateCoreStability` = `calculateStability`. -/
def calculateCoreStability (hist : List Frame) : ℝ := calculateStability hist

/-- Source `calculatePlankStability` = `calculateStability`. -/
def calculatePlankStability (hist : List Frame) : ℝ := calculateStability hist

/-- Source `calculateSingleLegStability` = `calculateStability`. -/
def calculateSingleLegStability (hist : List Frame) : ℝ := calculateStability hist

/-- Source `calculateLateralSymmetry` = `calculateBilateralSymmetry`. -/
def calculateLateralSymmetry (lm : Frame) : ℝ := calculateBilateralSymmetry lm

/-- Source `calculateFrontHipAngle` = `calculateHipAngle`. -/
def calculateFrontHipAngle (lm : Frame) : Option ℝ := calculateHipAngle lm

/-- Source `calculateFrontKneeAngle` = `calculateKneeAngle`. -/
def calculateFrontKneeAngle (lm : Frame) : Option ℝ := calculateKneeAngle lm

/-- Source `calculateBackHipAngle` = `calculateHipAngle`. -/
def calculateBackHipAngle (lm : Frame) : Option ℝ := calculateHipAngle lm

/-- Source `calculateLungeDepth` = `calculateSquatDepth`. -/
def calculateLungeDepth (lm : Frame) : ℝ := calculateSquatDepth lm

/-- Source `calculateMovementTiming`: constant 1.0. -/
def calculateMovementTiming : ℝ := 1.0

/-- Source `calculateHoldTime`: constant 1.0. -/
def calculateHoldTime : ℝ := 1.0

/-- Source `calculateSquatBiomechanics` (route.ts:276-288). -/
def calculateSquatBiomechanics (hist : List Frame) (lm : Frame) : BiomechanicalAnalysis :=
  { jointAngles :=
      [("hip", calculateHipAngle lm), ("knee", calculateKneeAngle lm),
       ("ankle", calculateAnkleAngle lm)]
    symmetry := calculateBilateralSymmetry lm
    stability := calculateStability hist
    range := calculateSquatDepth lm / 100
    timing := calculateMovementTiming }

/-- Source `calculatePushupBiomechanics` (route.ts:290-302). -/
def calculatePushupBiomechanics (hist : List Frame) (lm : Frame) : BiomechanicalAnalysis :=
  { jointAngles :=
      [("shoulder", calculateShoulderAngle lm), ("elbow", calculateElbowAngle lm),
       ("wrist", calculateWristAngle lm)]
    symmetry := calculateBilateralSymmetry lm
    stability := calculateCoreStability hist
    range := calculatePushupROM hist / 100
    timing := calculateMovementTiming }

/-- Source `calculatePlankBiomechanics` (route.ts:304-316). -/
def calculatePlankBiomechanics (hist : List Frame) (lm : Frame) : BiomechanicalAnalysis :=
  { jointAngles :=
      [("shoulder", calculateShoulderAngle lm), ("hip", calculateHipAngle lm),
       ("spine", calculateSpinalAngle lm)]
    symmetry := calculateBilateralSymmetry lm
    stability := calculatePlankStability hist
    range := 1.0
    timing := calculateHoldTime }

/-- Source `calculateLungeBiomechanics` (route.ts:318-330). -/
def calculateLungeBiomechanics (hist : List Frame) (lm : Frame) : BiomechanicalAnalysis :=
  { jointAngles :=
      [("frontHip", calculateFrontHipAngle lm), ("frontKnee", calculateFrontKneeAngle lm),
       ("backHip", calculateBackHipAngle lm)]
    symmetry := calculateLateralSymmetry lm
    stability := calculateSingleLegStability hist
    range := calculateLungeDepth lm / 100
    timing := calculateMovementTiming }

/-- Source `analyzeSquat` (route.ts:82-135).  Each check contributes its
findings in source push order; per-check triples are
(criticalErrors, minorIssues, strengths). -/
def analyzeSquat (hist : List Frame) (lm : Frame) : FormAssessment :=
  let biomechanics := calculateSquatBiomechanics hist lm
  let phase := detectSquatPhase hist
  let kneeValgus := analyzeKneeAlignment lm
  let kneeFindings : List String × List String × List String :=
    if kneeValgus > 15 then (["Knees caving inward - risk of injury"], [], [])
    else if kneeValgus > 8 then ([], ["Slight knee valgus - focus on external rotation"], [])
    else ([], [], ["Good knee alignment"])
  let backAngle := calculateBackAngle lm
  let backFindings : List String × List String × List String :=
    if backAngle > 45 then (["Excessive forward lean - maintain upright torso"], [], [])
    else if backAngle > 30 then ([], ["Slight forward lean - engage core more"], [])
    else ([], [], ["Good torso position"])
  let depth := calculateSquatDepth lm
  let depthFindings : List String × List String :=
    if depth < 70 then (["Increase squat depth for full range of motion"], [])
    else ([], ["Good squat depth"])
  let symFindings : List String × List String :=
    if biomechanics.symmetry < 0.85 then (["Slight asymmetry detected - check balance"], [])
    else ([], ["Good bilateral symmetry"])
  let criticalErrors := kneeFindings.1 ++ backFindings.1
  let minorIssues := kneeFindings.2.1 ++ backFindings.2.1 ++ depthFindings.1 ++ symFindings.1
  let strengths := kneeFindings.2.2 ++ backFindings.2.2 ++ depthFindings.2 ++ symFindings.2
  let score := calculateFormScore criticalErrors minorIssues strengths
  { score, criticalErrors, minorIssues, strengths, phase, biomechanics }

/-- Source `analyzePushup` (route.ts:137-181).  The elbow comparison
`elbowAngle > 90` uses `optGt` because `calculateElbowAngle` can be NaN and JS
NaN comparisons are false. -/
def analyzePushup (hist : List Frame) (lm : Frame) : FormAssessment :=
  let biomechanics := calculatePushupBiomechanics hist lm
  let phase := detectPushupPhase hist
  let hipSag := analyzePushupAlignment lm
  let alignFindings : List String × List String × List String :=
    if hipSag > 20 then (["Hips sagging - engage core muscles"], [], [])
    else if hipSag > 10 then ([], ["Slight hip sag - tighten core"], [])
    else ([], [], ["Good plank position"])
  let elbowAngle := calculateElbowAngle lm
  let elbowFindings : List String × List String :=
    if optGt elbowAngle 90 then (["Elbows flaring too wide - aim for 45 degrees"], [])
    else ([], ["Good elbow position"])
  let rom := calculatePushupROM hist
  let romFindings : List String × List String :=
    if rom < 60 then (["Increase range of motion - lower chest closer to ground"], [])
    else ([], ["Good range of motion"])
  let criticalErrors := alignFindings.1
  let minorIssues := alignFindings.2.1 ++ elbowFindings.1 ++ romFindings.1
  let strengths := alignFindings.2.2 ++ elbowFindings.2 ++ romFindings.2
  let score := calculateFormScore criticalErrors minorIssues strengths
  { score, criticalErrors, minorIssues, strengths, phase, biomechanics }

/-- Source `analyzePlank` (route.ts:183-228); the phase is the constant
`"hold"`. -/
def analyzePlank (hist : List Frame) (lm : Frame) : FormAssessment :=
  let biomechanics := calculatePlankBiomechanics hist lm
  let phase := "hold"
  let deviation := analyzePlankAlignment lm
  let spinalFindings : List String × List String × List String :=
    if deviation > 25 then (["Significant spinal misalignment"], [], [])
    else if deviation > 15 then ([], ["Minor spinal deviation - adjust position"], [])
    else ([], [], ["Excellent spinal alignment"])
  let height := calculateHipPosition lm
  let hipFindings : List String × List String :=
    if height < 0.3 then (["Hips too low - lift to neutral"], [])
    else if height > 0.7 then (["Hips too high - lower to neutral"], [])
    else ([], ["Good hip position"])
  let stabFindings : List String × List String :=
    if biomechanics.stability < 0.7 then (["Work on stability - reduce trembling"], [])
    else ([], ["Good stability"])
  let criticalErrors := spinalFindings.1 ++ hipFindings.1
  let minorIssues := spinalFindings.2.1 ++ stabFindings.1
  let strengths := spinalFindings.2.2 ++ hipFindings.2 ++ stabFindings.2
  let score := calculateFormScore criticalErrors minorIssues strengths
  { score, criticalErrors, minorIssues, strengths, phase, biomechanics }

/-- Source `analyzeLunge` (route.ts:230-273). -/
def analyzeLunge (hist : List Frame) (lm : Frame) : FormAssessment :=
  let biomechanics := calculateLungeBiomechanics hist lm
  let phase := detectLungePhase hist
  let overAnkle := analyzeFrontKneeAlignment lm
  let kneeFindings : List String × List String × List String :=
    if overAnkle > 20 then (["Front knee too far forward - shift weight back"], [], [])
    else if overAnkle > 10 then ([], ["Front knee slightly forward - adjust stance"], [])
    else ([], [], ["Good front knee position"])
  let torsoLean := calculateTorsoLean lm
  let torsoFindings : List String × List String :=
    if torsoLean > 20 then (["Excessive forward lean - keep torso upright"], [])
    else ([], ["Good torso position"])
  let balanceFindings : List String × List String :=
    if biomechanics.stability < 0.6 then (["Work on balance - engage core"], [])
    else ([], ["Good balance"])
  let criticalErrors := kneeFindings.1
  let minorIssues := kneeFindings.2.1 ++ torsoFindings.1 ++ balanceFindings.1
  let strengths := kneeFindings.2.2 ++ torsoFindings.2 ++ balanceFindings.2
  let score := calculateFormScore criticalErrors minorIssues strengths
  { score, criticalErrors, minorIssues, strengths, phase, biomechanics }

/-- Source `analyzeExercise` (route.ts:60-80): append to the history, then
dispatch on the exercise string; unknown identifiers fall back to
`getDefaultAssessment`.  The updated history is returned as the second
component (explicit-state rendering of the mutable `frameHistory`). -/
def analyzeExercise (st : List Frame) (lm : Frame) (exercise : String) :
    FormAssessment × List Frame :=
  let hist := pushFrame st lm
  if exercise = "squat" then (analyzeSquat hist lm, hist)
  else if exercise = "pushup" then (analyzePushup hist lm, hist)
  else if exercise = "plank" then (analyzePlank hist lm, hist)
  else if exercise = "lunge" then (analyzeLunge hist lm, hist)
  else (getDefaultAssessment, hist)

end

/-! ## Helper lemmas -/

/-- The source's clamp-based scoring function agrees with the spec's formula
as a function of the three list lengths. -/
theorem formScore_eq_specScore (ce mi s : List String) :
    calculateFormScore ce mi s = specScore ce.length mi.length s.length := rfl

theorem formScore_nonneg (ce mi s : List String) : 0 ≤ calculateFormScore ce mi s :=
  le_max_left _ _

theorem formScore_le_100 (ce mi s : List String) : calculateFormScore ce mi s ≤ 100 := by
  simp only [calculateFormScore]
  exact max_le (by norm_num) (min_le_left _ _)

theorem analyzeSquat_score_eq (hist : List Frame) (lm : Frame) :
    (analyzeSquat hist lm).score =
      calculateFormScore (analyzeSquat hist lm).criticalErrors
        (analyzeSquat hist lm).minorIssues (analyzeSquat hist lm).strengths := rfl

theorem analyzePushup_score_eq (hist : List Frame) (lm : Frame) :
    (analyzePushup hist lm).score =
      calculateFormScore (analyzePushup hist lm).criticalErrors
        (analyzePushup hist lm).minorIssues (analyzePushup hist lm).strengths := rfl

theorem analyzePlank_score_eq (hist : List Frame) (lm : Frame) :
    (analyzePlank hist lm).score =
      calculateFormScore (analyzePlank hist lm).criticalErrors
        (analyzePlank hist lm).minorIssues (analyzePlank hist lm).strengths := rfl

theorem analyzeLunge_score_eq (hist : List Frame) (lm : Frame) :
    (analyzeLunge hist lm).score =
      calculateFormScore (analyzeLunge hist lm).criticalErrors
        (analyzeLunge hist lm).minorIssues (analyzeLunge hist lm).strengths := rfl

theorem detectSquatPhase_cases (hist : List Frame) :
    detectSquatPhase hist = "starting" ∨ detectSquatPhase hist = "descending" ∨
    detectSquatPhase hist = "ascending" ∨ detectSquatPhase hist = "bottom" := by
  simp only [detectSquatPhase]
  split_ifs <;> simp

theorem detectPushupPhase_cases (hist : List Frame) :
    detectPushupPhase hist = "starting" ∨ detectPushupPhase hist = "descending" ∨
    detectPushupPhase hist = "ascending" ∨ detectPushupPhase hist = "bottom" := by
  simp only [detectPushupPhase]
  split_ifs <;> simp

theorem detectLungePhase_cases (hist : List Frame) :
    detectLungePhase hist = "starting" ∨ detectLungePhase hist = "descending" ∨
    detectLungePhase hist = "ascending" ∨ detectLungePhase hist = "bottom" := by
  simp only [detectLungePhase]
  split_ifs <;> simp

/-- Score bounds for every dispatch branch of `analyzeExercise`. -/
theorem analyzeExercise_score_bounds (st : List Frame) (lm : Frame) (exercise : String) :
    0 ≤ (analyzeExercise st lm exercise).1.score ∧
      (analyzeExercise st lm exercise).1.score ≤ 100 := by
  unfold analyzeExercise
  split_ifs <;> simp only
  · rw [analyzeSquat_score_eq]
    exact ⟨formScore_nonneg _ _ _, formScore_le_100 _ _ _⟩
  · rw [analyzePushup_score_eq]
    exact ⟨formScore_nonneg _ _ _, formScore_le_100 _ _ _⟩
  · rw [analyzePlank_score_eq]
    exact ⟨formScore_nonneg _ _ _, formScore_le_100 _ _ _⟩
  · rw [analyzeLunge_score_eq]
    exact ⟨formScore_nonneg _ _ _, formScore_le_100 _ _ _⟩
  · exact ⟨by norm_num [getDefaultAssessment], by norm_num [getDefaultAssessment]⟩

/-- A frame used as a generic concrete input in witnesses. -/
def zeroFrame : Frame := fun _ => { x := 0, y := 0, z := 0, visibility := 1 }

/-! ## Claim theorems -/

/-- Claim C2 (confirmed): in the shallow embedding `analyzeExercise` is a total
Lean function — every call returns a fully-formed `FormAssessment` (all fields
are present by construction) with the score inside `[0, 100]` and the phase one
of the six labels the engine can produce; unknown exercises and insufficient
history are handled by fallback branches, never by failure. -/
theorem c2_totality (st : List Frame) (lm : Frame) (exercise : String) :
    0 ≤ (analyzeExercise st lm exercise).1.score ∧
    (analyzeExercise st lm exercise).1.score ≤ 100 ∧
    (analyzeExercise st lm exercise).1.phase ∈
      ["starting", "descending", "ascending", "bottom", "hold", "unknown"] := by
  refine ⟨(analyzeExercise_score_bounds st lm exercise).1,
    (analyzeExercise_score_bounds st lm exercise).2, ?_⟩
  unfold analyzeExercise
  split_ifs <;> simp only
  · have h : (analyzeSquat (pushFrame st lm) lm).phase = detectSquatPhase (pushFrame st lm) := rfl
    rw [h]
    rcases detectSquatPhase_cases (pushFrame st lm) with h1 | h1 | h1 | h1 <;> simp [h1]
  · have h : (analyzePushup (pushFrame st lm) lm).phase =
      detectPushupPhase (pushFrame st lm) := rfl
    rw [h]
    rcases detectPushupPhase_cases (pushFrame st lm) with h1 | h1 | h1 | h1 <;> simp [h1]
  · have h : (analyzePlank (pushFrame st lm) lm).phase = "hold" := rfl
    simp [h]
  · have h : (analyzeLunge (pushFrame st lm) lm).phase = detectLungePhase (pushFrame st lm) := rfl
    rw [h]
    rcases detectLungePhase_cases (pushFrame st lm) with h1 | h1 | h1 | h1 <;> simp [h1]
  · simp [getDefaultAssessment]

/-- Claim C3 (confirmed): any exercise identifier outside
{squat, pushup, plank, lunge} yields exactly the fixed default neutral
assessment. -/
theorem c3_unknown_fallback (st : List Frame) (lm : Frame) (exercise : String)
    (hex : exercise ∉ ["squat", "pushup", "plank", "lunge"]) :
    (analyzeExercise st lm exercise).1 =
      { score := 75
        criticalErrors := []
        minorIssues := []
        strengths := ["Exercise detected"]
        phase := "unknown"
        biomechanics :=
          { jointAngles := [], symmetry := 0.8, stability := 0.7,
            range := 0.8, timing := 1.0 } } := by
  simp only [List.mem_cons, List.not_mem_nil, or_false, not_or] at hex
  obtain ⟨h1, h2, h3, h4⟩ := hex
  unfold analyzeExercise
  rw [if_neg h1, if_neg h2, if_neg h3, if_neg h4]
  rfl

theorem c3_unknown_fallback_witness :
    "rest" ∉ ["squat", "pushup", "plank", "lunge"] ∧
    (analyzeExercise [] zeroFrame "rest").1 =
      { score := 75
        criticalErrors := []
        minorIssues := []
        strengths := ["Exercise detected"]
        phase := "unknown"
        biomechanics :=
          { jointAngles := [], symmetry := 0.8, stability := 0.7,
            range := 0.8, timing := 1.0 } } :=
  ⟨by simp, c3_unknown_fallback [] zeroFrame "rest" (by simp)⟩

/-- Claim C1 (amended): for every analyze call that dispatches to one of the
four recognized exercises, the returned score equals the spec's formula
`clamp(100 − 25·|criticalErrors| − 10·|minorIssues| + 5·|strengths|, 0, 100)`
applied to the three finding lists of that same call; for every call
(recognized or not) the score lies in `[0, 100]`; and the source's scoring
function depends only on the three list lengths.  (The original claim's "for
every analyze call" fails on the unknown-exercise branch, which returns the
hard-coded 75 instead of the formula value 100 — see the counterexample.) -/
theorem c1_scoring_policy (st : List Frame) (lm : Frame) :
    (∀ exercise, exercise ∈ ["squat", "pushup", "plank", "lunge"] →
      (analyzeExercise st lm exercise).1.score =
        specScore (analyzeExercise st lm exercise).1.criticalErrors.length
          (analyzeExercise st lm exercise).1.minorIssues.length
          (analyzeExercise st lm exercise).1.strengths.length) ∧
    (∀ exercise, 0 ≤ (analyzeExercise st lm exercise).1.score ∧
      (analyzeExercise st lm exercise).1.score ≤ 100) ∧
    (∀ ce mi s : List String,
      calculateFormScore ce mi s = specScore ce.length mi.length s.length) := by
  refine ⟨?_, fun exercise => analyzeExercise_score_bounds st lm exercise,
    fun ce mi s => formScore_eq_specScore ce mi s⟩
  intro exercise hex
  simp only [List.mem_cons, List.not_mem_nil, or_false] at hex
  rcases hex with h | h | h | h <;> subst h <;> unfold analyzeExercise <;>
    simp only [if_pos, if_neg, reduceIte] <;>
    rw [← formScore_eq_specScore]
  · exact analyzeSquat_score_eq _ _
  · exact analyzePushup_score_eq _ _
  · exact analyzePlank_score_eq _ _
  · exact analyzeLunge_score_eq _ _

theorem c1_scoring_policy_witness :
    "squat" ∈ ["squat", "pushup", "plank", "lunge"] ∧
    (analyzeExercise [] zeroFrame "squat").1.score =
      specScore (analyzeExercise [] zeroFrame "squat").1.criticalErrors.length
        (analyzeExercise [] zeroFrame "squat").1.minorIssues.length
        (analyzeExercise [] zeroFrame "squat").1.strengths.length :=
  ⟨by simp, (c1_scoring_policy [] zeroFrame).1 "squat" (by simp)⟩

/-- Claim C1 counterexample: on the unknown-exercise branch the returned score
(75) differs from the spec formula applied to the returned finding lists
(`clamp(100 + 5) = 100`), so "for every analyze call" is too strong. -/
theorem c1_scoring_policy_cex :
    (analyzeExercise [] zeroFrame "balance").1.score = 75 ∧
    specScore (analyzeExercise [] zeroFrame "balance").1.criticalErrors.length
      (analyzeExercise [] zeroFrame "balance").1.minorIssues.length
      (analyzeExercise [] zeroFrame "balance").1.strengths.length = 100 ∧
    (analyzeExercise [] zeroFrame "balance").1.score ≠
      specScore (analyzeExercise [] zeroFrame "balance").1.criticalErrors.length
        (analyzeExercise [] zeroFrame "balance").1.minorIssues.length
        (analyzeExercise [] zeroFrame "balance").1.strengths.length := by
  have h : (analyzeExercise [] zeroFrame "balance").1 = getDefaultAssessment := by
    unfold analyzeExercise
    rw [if_neg (by decide), if_neg (by decide), if_neg (by decide), if_neg (by decide)]
  rw [h]
  refine ⟨rfl, by decide, by decide⟩

/-- Claim C7 counterexample: with 0 critical errors, 0 minor issues and 4
strengths the raw score 120 clamps to 100; adding one critical error gives 95,
a decrease of 5, not 25 — the claim fails when the score is clamped at 100. -/
theorem c7_severity_cex :
    calculateFormScore [] [] ["a", "b", "c", "d"] = 100 ∧
    calculateFormScore ["x"] [] ["a", "b", "c", "d"] = 95 ∧
    calculateFormScore ["x"] [] ["a", "b", "c", "d"] ≠
      calculateFormScore [] [] ["a", "b", "c", "d"] - 25 := by
  decide

/-- Claim C7 (amended): adding one critical error (minor/strength counts fixed)
decreases the score by exactly 25, provided the raw pre-increment score does
not exceed 100 (no clamp at the top — this proviso is what the counterexample
forces) and the raw post-increment score is still nonnegative (the claim's own
"until clamped at 0"). -/
theorem c7_severity_amended (ce mi s : List String) (msg : String)
    (hup : 100 - 25 * (ce.length : ℤ) - 10 * (mi.length : ℤ) + 5 * (s.length : ℤ) ≤ 100)
    (hdown : 0 ≤ 100 - 25 * ((ce.length : ℤ) + 1) - 10 * (mi.length : ℤ)
      + 5 * (s.length : ℤ)) :
    calculateFormScore (msg :: ce) mi s = calculateFormScore ce mi s - 25 := by
  simp only [calculateFormScore, List.length_cons]
  push_cast
  omega

theorem pushFrame_length_le (hist : List Frame) (lm : Frame) (h : hist.length ≤ 30) :
    (pushFrame hist lm).length ≤ 30 := by
  simp only [pushFrame]
  split_ifs with hgt <;> simp_all

/-- Characterization of repeated appends: starting from a history of at most 30
frames, folding `pushFrame` keeps exactly the suffix that fits in the
30-frame window. -/
theorem foldl_pushFrame_drop (frames : List Frame) :
    ∀ hist : List Frame, hist.length ≤ 30 →
      frames.foldl pushFrame hist =
        (hist ++ frames).drop (hist.length + frames.length - 30) := by
  induction frames with
  | nil =>
    intro hist h
    simp [Nat.sub_eq_zero_of_le h]
  | cons f fs ih =>
    intro hist h
    rw [List.foldl_cons, ih (pushFrame hist f) (pushFrame_length_le hist f h)]
    by_cases hlt : hist.length + 1 ≤ 30
    · have hpf : pushFrame hist f = hist ++ [f] := by
        simp only [pushFrame]
        rw [if_neg (by simp; omega)]
      rw [hpf]
      simp only [List.length_append, List.length_cons, List.length_nil, List.append_assoc,
        List.singleton_append]
      congr 1
      omega
    · have h30 : hist.length = 30 := by omega
      obtain ⟨a, t, rfl⟩ : ∃ a t, hist = a :: t := by
        cases hist with
        | nil => simp at h30
        | cons a t => exact ⟨a, t, rfl⟩
      simp only [List.length_cons] at h30
      have hpf : pushFrame (a :: t) f = t ++ [f] := by
        simp only [pushFrame]
        rw [if_pos (by simp only [List.length_append, List.length_cons, List.length_nil]; omega)]
        simp
      rw [hpf]
      simp only [List.length_append, List.length_cons, List.length_nil, List.append_assoc,
        List.singleton_append, List.cons_append, List.nil_append, zero_add]
      have e1 : t.length + 1 + fs.length - 30 = fs.length := by omega
      have e2 : t.length + 1 + (fs.length + 1) - 30 = fs.length + 1 := by omega
      rw [e1, e2, List.drop_succ_cons]

theorem foldl_pushFrame_length (frames : List Frame) :
    ∀ hist : List Frame, hist.length ≤ 30 →
      (frames.foldl pushFrame hist).length ≤ 30 := by
  induction frames with
  | nil => intro hist h; simpa using h
  | cons f fs ih => intro hist h; exact ih _ (pushFrame_length_le hist f h)

/-- The history returned by `analyzeExercise` is always the pushed history,
whatever the exercise string. -/
theorem analyzeExercise_snd (st : List Frame) (lm : Frame) (exercise : String) :
    (analyzeExercise st lm exercise).2 = pushFrame st lm := by
  unfold analyzeExercise
  split_ifs <;> rfl

/-- Claim C4 (confirmed): after any sequence of analyze calls starting from a
fresh analyzer, the history buffer holds at most 30 frames, and once more than
30 frames have been appended it holds exactly the 30 most recently appended
frames in append order (the suffix of the appended frames). -/
theorem c4_history_capacity (calls : List (Frame × String)) :
    (calls.foldl (fun st c => (analyzeExercise st c.1 c.2).2) []).length ≤ 30 ∧
    (30 < calls.length →
      calls.foldl (fun st c => (analyzeExercise st c.1 c.2).2) [] =
        (calls.map Prod.fst).drop (calls.length - 30)) := by
  have hstep : ∀ (cs : List (Frame × String)) (st : List Frame),
      cs.foldl (fun st c => (analyzeExercise st c.1 c.2).2) st =
        (cs.map Prod.fst).foldl pushFrame st := by
    intro cs
    induction cs with
    | nil => intro st; rfl
    | cons c cs ih =>
      intro st
      rw [List.foldl_cons, List.map_cons, List.foldl_cons, analyzeExercise_snd, ih]
  rw [hstep]
  constructor
  · exact foldl_pushFrame_length _ [] (by simp)
  · intro h
    rw [foldl_pushFrame_drop _ [] (by simp)]
    simp

theorem c4_history_capacity_witness :
    30 < (List.replicate 31 (zeroFrame, "squat")).length ∧
    (List.replicate 31 (zeroFrame, "squat")).foldl
        (fun st c => (analyzeExercise st c.1 c.2).2) [] =
      ((List.replicate 31 (zeroFrame, "squat")).map Prod.fst).drop
        ((List.replicate 31 (zeroFrame, "squat")).length - 30) :=
  ⟨by simp, (c4_history_capacity (List.replicate 31 (zeroFrame, "squat"))).2 (by simp)⟩

theorem c7_severity_amended_witness :
    (100 - 25 * (([] : List String).length : ℤ) - 10 * (([] : List String).length : ℤ)
      + 5 * (([] : List String).length : ℤ) ≤ 100) ∧
    (0 ≤ 100 - 25 * ((([] : List String).length : ℤ) + 1) - 10 * (([] : List String).length : ℤ)
      + 5 * (([] : List String).length : ℤ)) ∧
    calculateFormScore ["x"] [] [] = calculateFormScore [] [] [] - 25 :=
  ⟨by decide, by decide, c7_severity_amended [] [] [] "x" (by decide) (by decide)⟩

/-- Claim C5 counterexample: with coincident points `p1 = p2` the first input
vector has zero length, the JS cosine is `0/0 = NaN`, and — because
`Math.min`/`Math.max` propagate NaN rather than clamping it — `Math.acos(NaN)`
is NaN: `calculateAngle` returns NaN (`none`), so the clamp does not guard
zero-length vectors. -/
theorem c5_angle_guard_cex :
    calculateAngle ⟨0, 0, 0, 1⟩ ⟨0, 0, 0, 1⟩ ⟨1, 0, 0, 1⟩ = none := by
  simp only [calculateAngle]
  norm_num

/-- Claim C5 (amended): `calculateAngle` returns a real angle (never NaN)
whenever both input vectors are nonzero on the 2D projection, i.e. `p1` and
`p3` each differ from the vertex `p2` in `x` or `y`; the returned angle lies in
`[0, 180]` degrees.  For a zero-length input vector the result is NaN — the
clamp only guards floating-point drift of the cosine, not `0/0`. -/
theorem c5_angle_guard_amended (p1 p2 p3 : Landmark)
    (h1 : ¬(p1.x = p2.x ∧ p1.y = p2.y)) (h3 : ¬(p3.x = p2.x ∧ p3.y = p2.y)) :
    ∃ θ : ℝ, calculateAngle p1 p2 p3 = some θ ∧ 0 ≤ θ ∧ θ ≤ 180 := by
  have sq_pos : ∀ a b : ℝ, ¬(a = 0 ∧ b = 0) → 0 < a * a + b * b := by
    intro a b hab
    rcases not_and_or.mp hab with ha | hb
    · have h := mul_self_pos.mpr ha
      nlinarith [mul_self_nonneg b]
    · have h := mul_self_pos.mpr hb
      nlinarith [mul_self_nonneg a]
  have hm1 : 0 < Real.sqrt ((p1.x - p2.x) * (p1.x - p2.x) + (p1.y - p2.y) * (p1.y - p2.y)) := by
    apply Real.sqrt_pos.mpr
    apply sq_pos
    intro ⟨ha, hb⟩
    exact h1 ⟨sub_eq_zero.mp ha, sub_eq_zero.mp hb⟩
  have hm2 : 0 < Real.sqrt ((p3.x - p2.x) * (p3.x - p2.x) + (p3.y - p2.y) * (p3.y - p2.y)) := by
    apply Real.sqrt_pos.mpr
    apply sq_pos
    intro ⟨ha, hb⟩
    exact h3 ⟨sub_eq_zero.mp ha, sub_eq_zero.mp hb⟩
  simp only [calculateAngle]
  rw [if_neg (mul_pos hm1 hm2).ne']
  refine ⟨_, rfl, ?_, ?_⟩
  · exact mul_nonneg (Real.arccos_nonneg _) (by positivity)
  · calc
      Real.arccos _ * (180 / Real.pi) ≤ Real.pi * (180 / Real.pi) :=
        mul_le_mul_of_nonneg_right (Real.arccos_le_pi _) (by positivity)
      _ = 180 := by
        rw [mul_comm, div_mul_cancel₀ _ Real.pi_ne_zero]

theorem c5_angle_guard_amended_witness :
    ¬((⟨1, 0, 0, 1⟩ : Landmark).x = (⟨0, 0, 0, 1⟩ : Landmark).x ∧
      (⟨1, 0, 0, 1⟩ : Landmark).y = (⟨0, 0, 0, 1⟩ : Landmark).y) ∧
    ¬((⟨0, 1, 0, 1⟩ : Landmark).x = (⟨0, 0, 0, 1⟩ : Landmark).x ∧
      (⟨0, 1, 0, 1⟩ : Landmark).y = (⟨0, 0, 0, 1⟩ : Landmark).y) ∧
    ∃ θ : ℝ, calculateAngle ⟨1, 0, 0, 1⟩ ⟨0, 0, 0, 1⟩ ⟨0, 1, 0, 1⟩ = some θ ∧
      0 ≤ θ ∧ θ ≤ 180 :=
  ⟨by norm_num, by norm_num,
    c5_angle_guard_amended ⟨1, 0, 0, 1⟩ ⟨0, 0, 0, 1⟩ ⟨0, 1, 0, 1⟩ (by norm_num) (by norm_num)⟩

/-- JS `atan2(y, 0)` with `y < 0` is `−π/2` (straight down in screen
coordinates is straight up in the image, since y grows downward). -/
theorem atan2_neg_left (y : ℝ) (hy : y < 0) : atan2 y 0 = -(Real.pi / 2) := by
  unfold atan2
  have h : ((0 : ℝ) : ℂ) + (y : ℂ) * Complex.I = ((-y : ℝ) : ℂ) * (-Complex.I) := by
    push_cast
    ring
  rw [h, Complex.arg_real_mul _ (by linarith : (0 : ℝ) < -y), Complex.arg_neg_I]

/-- Claim C10 (confirmed): the squat back-angle measure is the absolute
`atan2` angle of the hip→shoulder segment from the horizontal axis, so a
perfectly vertical torso (shoulder directly above the hip) measures 90°, which
exceeds the 45° threshold: such frames are always flagged with the
"Excessive forward lean" critical error. -/
theorem c10_upright_lean (st : List Frame) (lm : Frame)
    (hx : (lm 11).x = (lm 23).x) (hy : (lm 11).y < (lm 23).y) :
    calculateBackAngle lm = 90 ∧
    "Excessive forward lean - maintain upright torso" ∈
      (analyzeExercise st lm "squat").1.criticalErrors := by
  have hba : calculateBackAngle lm = 90 := by
    unfold calculateBackAngle
    have hx0 : (lm 11).x - (lm 23).x = 0 := sub_eq_zero.mpr hx
    rw [hx0, atan2_neg_left _ (by linarith : (lm 11).y - (lm 23).y < 0)]
    have h90 : -(Real.pi / 2) * (180 / Real.pi) = -90 := by
      field_simp
      ring
    rw [h90, abs_neg, abs_of_nonneg (by norm_num : (0 : ℝ) ≤ 90)]
  refine ⟨hba, ?_⟩
  have hsq : (analyzeExercise st lm "squat").1 = analyzeSquat (pushFrame st lm) lm := by
    unfold analyzeExercise
    rw [if_pos rfl]
  rw [hsq]
  simp only [analyzeSquat, hba]
  rw [if_pos (show (90 : ℝ) > 45 by norm_num)]
  simp

def c10Frame : Frame := fun i =>
  if i = 11 then { x := 0.4, y := 0.2, z := 0, visibility := 1 }
  else if i = 23 then { x := 0.4, y := 0.6, z := 0, visibility := 1 }
  else { x := 0, y := 0, z := 0, visibility := 1 }

theorem c10_upright_lean_witness :
    (c10Frame 11).x = (c10Frame 23).x ∧ (c10Frame 11).y < (c10Frame 23).y ∧
    "Excessive forward lean - maintain upright torso" ∈
      (analyzeExercise [] c10Frame "squat").1.criticalErrors := by
  have h2311 : ¬((23 : Fin 33) = 11) := by decide
  have hx : (c10Frame 11).x = (c10Frame 23).x := by
    norm_num [c10Frame, eq_false h2311]
  have hy : (c10Frame 11).y < (c10Frame 23).y := by
    norm_num [c10Frame, eq_false h2311]
  exact ⟨hx, hy, (c10_upright_lean [] c10Frame hx hy).2⟩

/-- The pushed history always ends with the freshly appended frame. -/
theorem pushFrame_concat (st : List Frame) (lm : Frame) :
    ∃ t : List Frame, pushFrame st lm = t ++ [lm] := by
  simp only [pushFrame]
  split_ifs with h
  · cases st with
    | nil => simp at h
    | cons a t => exact ⟨t, by simp⟩
  · exact ⟨st, rfl⟩

/-- With at least 3 frames of (post-append) history, the squat phase is the
three-way classification of the hip-height trend between the last and the
third-from-last history frames. -/
theorem detectSquatPhase_spec (hist : List Frame) (h3 : 3 ≤ hist.length) (f0 f2 : Frame)
    (h0 : hist[hist.length - 3]? = some f0) (h2 : hist[hist.length - 1]? = some f2) :
    detectSquatPhase hist =
      if (f2 23).y - (f0 23).y > 0.01 then "descending"
      else if (f2 23).y - (f0 23).y < -0.01 then "ascending"
      else "bottom" := by
  simp only [detectSquatPhase]
  rw [if_neg (by omega)]
  have e : hist.length - 3 + 2 = hist.length - 1 := by omega
  simp only [List.getElem?_map, List.getElem?_drop, Nat.add_zero, e, h0, h2,
    Option.map_some', Option.getD_some]

theorem detectPushupPhase_spec (hist : List Frame) (h3 : 3 ≤ hist.length) (f0 f2 : Frame)
    (h0 : hist[hist.length - 3]? = some f0) (h2 : hist[hist.length - 1]? = some f2) :
    detectPushupPhase hist =
      if (f2 11).y - (f0 11).y > 0.01 then "descending"
      else if (f2 11).y - (f0 11).y < -0.01 then "ascending"
      else "bottom" := by
  simp only [detectPushupPhase]
  rw [if_neg (by omega)]
  have e : hist.length - 3 + 2 = hist.length - 1 := by omega
  simp only [List.getElem?_map, List.getElem?_drop, Nat.add_zero, e, h0, h2,
    Option.map_some', Option.getD_some]

theorem detectLungePhase_spec (hist : List Frame) (h3 : 3 ≤ hist.length) (f0 f2 : Frame)
    (h0 : hist[hist.length - 3]? = some f0) (h2 : hist[hist.length - 1]? = some f2) :
    detectLungePhase hist =
      if (f2 23).y - (f0 23).y > 0.01 then "descending"
      else if (f2 23).y - (f0 23).y < -0.01 then "ascending"
      else "bottom" := by
  simp only [detectLungePhase]
  rw [if_neg (by omega)]
  have e : hist.length - 3 + 2 = hist.length - 1 := by omega
  simp only [List.getElem?_map, List.getElem?_drop, Nat.add_zero, e, h0, h2,
    Option.map_some', Option.getD_some]

theorem analyzeExercise_squat_phase (st : List Frame) (lm : Frame) :
    (analyzeExercise st lm "squat").1.phase = detectSquatPhase (pushFrame st lm) := by
  unfold analyzeExercise
  rw [if_pos rfl]
  rfl

theorem analyzeExercise_pushup_phase (st : List Frame) (lm : Frame) :
    (analyzeExercise st lm "pushup").1.phase = detectPushupPhase (pushFrame st lm) := by
  unfold analyzeExercise
  rw [if_neg (by decide), if_pos rfl]
  rfl

theorem analyzeExercise_lunge_phase (st : List Frame) (lm : Frame) :
    (analyzeExercise st lm "lunge").1.phase = detectLungePhase (pushFrame st lm) := by
  unfold analyzeExercise
  rw [if_neg (by decide), if_neg (by decide), if_neg (by decide), if_pos rfl]
  rfl

/-- Claim C6 (confirmed): for squat, pushup and lunge the phase is `"starting"`
when the post-append history holds fewer than 3 frames; otherwise it is
classified by the trend of the tracked landmark's y (hip 23 for squat/lunge,
shoulder 11 for pushup) between the newest of the last 3 history frames (the
current frame) and the oldest of those 3, with thresholds ±0.01; and the very
first analyze call of a squat session returns `"starting"`. -/
theorem c6_phase_detection (st : List Frame) (lm : Frame) :
    ((pushFrame st lm).length < 3 →
      (analyzeExercise st lm "squat").1.phase = "starting" ∧
      (analyzeExercise st lm "pushup").1.phase = "starting" ∧
      (analyzeExercise st lm "lunge").1.phase = "starting") ∧
    (∀ f0 : Frame, 3 ≤ (pushFrame st lm).length →
      (pushFrame st lm)[(pushFrame st lm).length - 3]? = some f0 →
      (((lm 23).y - (f0 23).y > 0.01 →
          (analyzeExercise st lm "squat").1.phase = "descending" ∧
          (analyzeExercise st lm "lunge").1.phase = "descending") ∧
       ((lm 23).y - (f0 23).y < -0.01 →
          (analyzeExercise st lm "squat").1.phase = "ascending" ∧
          (analyzeExercise st lm "lunge").1.phase = "ascending") ∧
       (¬(lm 23).y - (f0 23).y > 0.01 → ¬(lm 23).y - (f0 23).y < -0.01 →
          (analyzeExercise st lm "squat").1.phase = "bottom" ∧
          (analyzeExercise st lm "lunge").1.phase = "bottom") ∧
       ((lm 11).y - (f0 11).y > 0.01 →
          (analyzeExercise st lm "pushup").1.phase = "descending") ∧
       ((lm 11).y - (f0 11).y < -0.01 →
          (analyzeExercise st lm "pushup").1.phase = "ascending") ∧
       (¬(lm 11).y - (f0 11).y > 0.01 → ¬(lm 11).y - (f0 11).y < -0.01 →
          (analyzeExercise st lm "pushup").1.phase = "bottom"))) ∧
    (st = [] → (analyzeExercise st lm "squat").1.phase = "starting") := by
  refine ⟨?_, ?_, ?_⟩
  · intro hlt
    rw [analyzeExercise_squat_phase, analyzeExercise_pushup_phase, analyzeExercise_lunge_phase]
    simp only [detectSquatPhase, detectPushupPhase, detectLungePhase]
    simp [if_pos hlt]
  · intro f0 h3 h0
    obtain ⟨t, ht⟩ := pushFrame_concat st lm
    have hlast : (pushFrame st lm)[(pushFrame st lm).length - 1]? = some lm := by
      rw [ht]
      have e : (t ++ [lm]).length - 1 = t.length := by simp
      rw [e, List.getElem?_concat_length]
    rw [analyzeExercise_squat_phase, analyzeExercise_pushup_phase, analyzeExercise_lunge_phase,
      detectSquatPhase_spec (pushFrame st lm) h3 f0 lm h0 hlast,
      detectPushupPhase_spec (pushFrame st lm) h3 f0 lm h0 hlast,
      detectLungePhase_spec (pushFrame st lm) h3 f0 lm h0 hlast]
    refine ⟨fun h => ⟨by rw [if_pos h], by rw [if_pos h]⟩,
      fun h => ?_, fun h1 h2 => ?_, fun h => by rw [if_pos h],
      fun h => ?_, fun h1 h2 => ?_⟩
    · have hn : ¬(lm 23).y - (f0 23).y > 0.01 := by linarith
      exact ⟨by rw [if_neg hn, if_pos h], by rw [if_neg hn, if_pos h]⟩
    · exact ⟨by rw [if_neg h1, if_neg h2], by rw [if_neg h1, if_neg h2]⟩
    · have hn : ¬(lm 11).y - (f0 11).y > 0.01 := by linarith
      rw [if_neg hn, if_pos h]
    · rw [if_neg h1, if_neg h2]
  · intro h
    subst h
    have hpf : pushFrame [] lm = [lm] := by
      simp [pushFrame]
    rw [analyzeExercise_squat_phase, hpf]
    simp only [detectSquatPhase]
    rw [if_pos (by simp)]

def c6FrameA : Frame := fun _ => { x := 0, y := 0.2, z := 0, visibility := 1 }

def c6FrameB : Frame := fun _ => { x := 0, y := 0.3, z := 0, visibility := 1 }

def c6FrameC : Frame := fun _ => { x := 0, y := 0.5, z := 0, visibility := 1 }

theorem c6_phase_detection_witness :
    3 ≤ (pushFrame [c6FrameA, c6FrameB] c6FrameC).length ∧
    (pushFrame [c6FrameA, c6FrameB] c6FrameC)[(pushFrame [c6FrameA, c6FrameB] c6FrameC).length
      - 3]? = some c6FrameA ∧
    (c6FrameC 23).y - (c6FrameA 23).y > 0.01 ∧
    (analyzeExercise [c6FrameA, c6FrameB] c6FrameC "squat").1.phase = "descending" := by
  have hpf : pushFrame [c6FrameA, c6FrameB] c6FrameC = [c6FrameA, c6FrameB, c6FrameC] := by
    simp [pushFrame]
  have h3 : 3 ≤ (pushFrame [c6FrameA, c6FrameB] c6FrameC).length := by
    rw [hpf]
    simp
  have h0 : (pushFrame [c6FrameA, c6FrameB] c6FrameC)[(pushFrame [c6FrameA, c6FrameB]
      c6FrameC).length - 3]? = some c6FrameA := by
    rw [hpf]
    rfl
  have htr : (c6FrameC 23).y - (c6FrameA 23).y > 0.01 := by
    norm_num [c6FrameA, c6FrameC]
  exact ⟨h3, h0, htr,
    (((c6_phase_detection [c6FrameA, c6FrameB] c6FrameC).2.1 c6FrameA h3 h0).1 htr).1⟩

theorem analyzeExercise_plank_eq (st : List Frame) (lm : Frame) :
    (analyzeExercise st lm "plank").1 = analyzePlank (pushFrame st lm) lm := by
  unfold analyzeExercise
  rw [if_neg (by decide), if_neg (by decide), if_pos rfl]

/-- Claim C9 (amended): for every plank call the phase is `"hold"` regardless
of history; the spinal-alignment measure triggers the critical error
`"Significant spinal misalignment"` when the hip deviates from the expected
shoulder–ankle line point by more than 25 on the ×100 scale (the source
threshold is 25, not the claimed 20); and deviations in (15, 25] yield only
the minor issue `"Minor spinal deviation - adjust position"`, never the
spinal critical error. -/
theorem c9_plank_amended (st : List Frame) (lm : Frame) :
    (analyzePlankAlignment lm > 25 →
      "Significant spinal misalignment" ∈
        (analyzeExercise st lm "plank").1.criticalErrors) ∧
    (analyzePlankAlignment lm > 15 → analyzePlankAlignment lm ≤ 25 →
      "Minor spinal deviation - adjust position" ∈
        (analyzeExercise st lm "plank").1.minorIssues ∧
      "Significant spinal misalignment" ∉
        (analyzeExercise st lm "plank").1.criticalErrors) ∧
    (analyzeExercise st lm "plank").1.phase = "hold" := by
  rw [analyzeExercise_plank_eq]
  refine ⟨?_, ?_, rfl⟩
  · intro hdev
    simp only [analyzePlank]
    rw [if_pos hdev]
    simp
  · intro h15 h25
    have hn : ¬analyzePlankAlignment lm > 25 := by linarith
    constructor
    · simp only [analyzePlank]
      rw [if_neg hn, if_pos h15]
      simp
    · simp only [analyzePlank]
      rw [if_neg hn, if_pos h15]
      split_ifs <;> simp

def c9wFrame : Frame := fun i =>
  if i = 11 then { x := 0, y := 0.1, z := 0, visibility := 1 }
  else if i = 23 then { x := 0, y := 0.62, z := 0, visibility := 1 }
  else if i = 27 then { x := 0, y := 0.5, z := 0, visibility := 1 }
  else { x := 0, y := 0, z := 0, visibility := 1 }

def c9CexFrame : Frame := fun i =>
  if i = 11 then { x := 0, y := 0.1, z := 0, visibility := 1 }
  else if i = 23 then { x := 0, y := 0.56, z := 0, visibility := 1 }
  else if i = 27 then { x := 0, y := 0.5, z := 0, visibility := 1 }
  else { x := 0, y := 0, z := 0, visibility := 1 }

/-- Deviation of `c9wFrame`: `|0.62 − (0.1 + (0.5 − 0.1)·0.6)| × 100 = 28`. -/
theorem c9wFrame_deviation : analyzePlankAlignment c9wFrame = 28 := by
  simp only [analyzePlankAlignment, c9wFrame, eq_false (show ¬((23 : Fin 33) = 11) by decide),
    eq_false (show ¬((27 : Fin 33) = 11) by decide),
    eq_false (show ¬((27 : Fin 33) = 23) by decide), if_false, if_true, reduceIte]
  rw [abs_of_nonneg (by norm_num)]
  norm_num

/-- Deviation of `c9CexFrame`: `|0.56 − (0.1 + (0.5 − 0.1)·0.6)| × 100 = 22`. -/
theorem c9CexFrame_deviation : analyzePlankAlignment c9CexFrame = 22 := by
  simp only [analyzePlankAlignment, c9CexFrame,
    eq_false (show ¬((23 : Fin 33) = 11) by decide),
    eq_false (show ¬((27 : Fin 33) = 11) by decide),
    eq_false (show ¬((27 : Fin 33) = 23) by decide), if_false, if_true, reduceIte]
  rw [abs_of_nonneg (by norm_num)]
  norm_num

theorem c9_plank_amended_witness :
    (analyzePlankAlignment c9wFrame > 25 ∧
      "Significant spinal misalignment" ∈
        (analyzeExercise [] c9wFrame "plank").1.criticalErrors) ∧
    (analyzePlankAlignment c9CexFrame > 15 ∧ analyzePlankAlignment c9CexFrame ≤ 25 ∧
      ("Minor spinal deviation - adjust position" ∈
        (analyzeExercise [] c9CexFrame "plank").1.minorIssues ∧
      "Significant spinal misalignment" ∉
        (analyzeExercise [] c9CexFrame "plank").1.criticalErrors)) ∧
    (analyzeExercise [] c9wFrame "plank").1.phase = "hold" := by
  have hdev : analyzePlankAlignment c9wFrame > 25 := by
    rw [c9wFrame_deviation]
    norm_num
  have h15 : analyzePlankAlignment c9CexFrame > 15 := by
    rw [c9CexFrame_deviation]
    norm_num
  have h25 : analyzePlankAlignment c9CexFrame ≤ 25 := by
    rw [c9CexFrame_deviation]
    norm_num
  exact ⟨⟨hdev, (c9_plank_amended [] c9wFrame).1 hdev⟩,
    ⟨h15, h25, (c9_plank_amended [] c9CexFrame).2.1 h15 h25⟩,
    (c9_plank_amended [] c9wFrame).2.2⟩

/-- Claim C9 counterexample: a plank frame whose hip deviation is 22 (> 20, the
claim's threshold) produces NO critical error at all — the source only
escalates to critical above 25; at 22 the finding is the minor issue
"Minor spinal deviation". -/
theorem c9_plank_cex :
    analyzePlankAlignment c9CexFrame = 22 ∧ (22 : ℝ) > 20 ∧
    (analyzeExercise [] c9CexFrame "plank").1.criticalErrors = [] ∧
    "Minor spinal deviation - adjust position" ∈
      (analyzeExercise [] c9CexFrame "plank").1.minorIssues ∧
    (analyzeExercise [] c9CexFrame "plank").1.phase = "hold" := by
  have hdev : analyzePlankAlignment c9CexFrame = 22 := c9CexFrame_deviation
  have hh : calculateHipPosition c9CexFrame = 0.56 := by
    simp only [calculateHipPosition, c9CexFrame,
      eq_false (show ¬((23 : Fin 33) = 11) by decide), if_false, reduceIte]
  refine ⟨hdev, by norm_num, ?_, ?_, ?_⟩
  · rw [analyzeExercise_plank_eq]
    simp only [analyzePlank, hdev, hh]
    rw [if_neg (by norm_num : ¬(22 : ℝ) > 25), if_pos (by norm_num : (22 : ℝ) > 15),
      if_neg (by norm_num : ¬(0.56 : ℝ) < 0.3), if_neg (by norm_num : ¬(0.56 : ℝ) > 0.7)]
    simp
  · rw [analyzeExercise_plank_eq]
    simp only [analyzePlank, hdev]
    rw [if_neg (by norm_num : ¬(22 : ℝ) > 25), if_pos (by norm_num : (22 : ℝ) > 15)]
    simp
  · rw [analyzeExercise_plank_eq]
    rfl

theorem analyzeExercise_squat_eq (st : List Frame) (lm : Frame) :
    (analyzeExercise st lm "squat").1 = analyzeSquat (pushFrame st lm) lm := by
  unfold analyzeExercise
  rw [if_pos rfl]

/-- JS `atan2(0, x)` with `0 ≤ x` is 0. -/
theorem atan2_zero_right (x : ℝ) (hx : 0 ≤ x) : atan2 0 x = 0 := by
  unfold atan2
  rw [show ((x : ℂ) + ((0 : ℝ) : ℂ) * Complex.I) = ((x : ℝ) : ℂ) by push_cast; ring]
  exact Complex.arg_ofReal_of_nonneg hx

/-- Claim C8 (amended): for squat frames, a knee-valgus measure above 15 always
produces the critical error `"Knees caving inward - risk of injury"`; and
relative to an otherwise-identical good-form frame (same back-angle, depth and
symmetry measures, valgus ≤ 8 so the knee check yields the
"Good knee alignment" strength), the score is at least 25 lower — provided the
good-form frame's score is below 100.  (When the good frame's raw score
exceeds 100 it is clamped and the gap can shrink to 10 — see the
counterexample, which is what forces the proviso.) -/
theorem c8_knee_valgus_amended (st : List Frame) (lmB lmG : Frame)
    (hvB : analyzeKneeAlignment lmB > 15)
    (hvG : analyzeKneeAlignment lmG ≤ 8)
    (hback : calculateBackAngle lmB = calculateBackAngle lmG)
    (hdepth : calculateSquatDepth lmB = calculateSquatDepth lmG)
    (hsym : calculateBilateralSymmetry lmB = calculateBilateralSymmetry lmG) :
    "Knees caving inward - risk of injury" ∈
      (analyzeExercise st lmB "squat").1.criticalErrors ∧
    ((analyzeExercise st lmG "squat").1.score < 100 →
      (analyzeExercise st lmB "squat").1.score ≤
        (analyzeExercise st lmG "squat").1.score - 25) := by
  rw [analyzeExercise_squat_eq, analyzeExercise_squat_eq]
  have hvG15 : ¬analyzeKneeAlignment lmG > 15 := by linarith
  have hvG8 : ¬analyzeKneeAlignment lmG > 8 := by linarith
  constructor
  · simp only [analyzeSquat]
    rw [if_pos hvB]
    simp
  · simp only [analyzeSquat, calculateSquatBiomechanics, hback, hdepth, hsym,
      if_pos hvB, if_neg hvG15, if_neg hvG8]
    split_ifs <;> decide

def c8Good : Frame := fun i =>
  if i = 11 then { x := 0.8, y := 1.0, z := 0, visibility := 1 }
  else if i = 12 then { x := 0.2, y := 1.0, z := 0, visibility := 1 }
  else if i = 23 then { x := 0.5, y := 1.0, z := 0, visibility := 1 }
  else if i = 24 then { x := 0.5, y := 1.0, z := 0, visibility := 1 }
  else if i = 25 then { x := 0.5, y := 0.3, z := 0, visibility := 1 }
  else if i = 26 then { x := 0.5, y := 0.3, z := 0, visibility := 1 }
  else if i = 27 then { x := 0.5, y := 0.3, z := 0, visibility := 1 }
  else if i = 28 then { x := 0.5, y := 0.3, z := 0, visibility := 1 }
  else { x := 0, y := 0, z := 0, visibility := 1 }

/-- Same frame as `c8Good` except the left ankle (27) is shifted in x, raising
the left-knee valgus measure from 0 to 20; no y coordinate changes, so back
angle, depth and symmetry are untouched. -/
def c8Bad : Frame := fun i =>
  if i = 11 then { x := 0.8, y := 1.0, z := 0, visibility := 1 }
  else if i = 12 then { x := 0.2, y := 1.0, z := 0, visibility := 1 }
  else if i = 23 then { x := 0.5, y := 1.0, z := 0, visibility := 1 }
  else if i = 24 then { x := 0.5, y := 1.0, z := 0, visibility := 1 }
  else if i = 25 then { x := 0.5, y := 0.3, z := 0, visibility := 1 }
  else if i = 26 then { x := 0.5, y := 0.3, z := 0, visibility := 1 }
  else if i = 27 then { x := 0.3, y := 0.3, z := 0, visibility := 1 }
  else if i = 28 then { x := 0.5, y := 0.3, z := 0, visibility := 1 }
  else { x := 0, y := 0, z := 0, visibility := 1 }

theorem c8Bad_valgus : analyzeKneeAlignment c8Bad = 20 := by
  have h25 : c8Bad 25 = { x := 0.5, y := 0.3, z := 0, visibility := 1 } := rfl
  have h26 : c8Bad 26 = { x := 0.5, y := 0.3, z := 0, visibility := 1 } := rfl
  have h27 : c8Bad 27 = { x := 0.3, y := 0.3, z := 0, visibility := 1 } := rfl
  have h28 : c8Bad 28 = { x := 0.5, y := 0.3, z := 0, visibility := 1 } := rfl
  simp only [analyzeKneeAlignment, h25, h26, h27, h28]
  rw [abs_of_nonneg (by norm_num : (0 : ℝ) ≤ 0.5 - 0.3), sub_self, abs_zero]
  norm_num [max_def]

theorem c8Good_valgus : analyzeKneeAlignment c8Good = 0 := by
  have h25 : c8Good 25 = { x := 0.5, y := 0.3, z := 0, visibility := 1 } := rfl
  have h26 : c8Good 26 = { x := 0.5, y := 0.3, z := 0, visibility := 1 } := rfl
  have h27 : c8Good 27 = { x := 0.5, y := 0.3, z := 0, visibility := 1 } := rfl
  have h28 : c8Good 28 = { x := 0.5, y := 0.3, z := 0, visibility := 1 } := rfl
  simp only [analyzeKneeAlignment, h25, h26, h27, h28]
  rw [sub_self, abs_zero]
  norm_num [max_def]

theorem c8_back_eq : calculateBackAngle c8Bad = calculateBackAngle c8Good := by
  have hB11 : c8Bad 11 = { x := 0.8, y := 1.0, z := 0, visibility := 1 } := rfl
  have hB23 : c8Bad 23 = { x := 0.5, y := 1.0, z := 0, visibility := 1 } := rfl
  have hG11 : c8Good 11 = { x := 0.8, y := 1.0, z := 0, visibility := 1 } := rfl
  have hG23 : c8Good 23 = { x := 0.5, y := 1.0, z := 0, visibility := 1 } := rfl
  simp only [calculateBackAngle, hB11, hB23, hG11, hG23]

theorem c8Good_back : calculateBackAngle c8Good = 0 := by
  have hG11 : c8Good 11 = { x := 0.8, y := 1.0, z := 0, visibility := 1 } := rfl
  have hG23 : c8Good 23 = { x := 0.5, y := 1.0, z := 0, visibility := 1 } := rfl
  simp only [calculateBackAngle, hG11, hG23]
  rw [show (1.0 : ℝ) - 1.0 = 0 by norm_num,
    show (0.8 : ℝ) - 0.5 = 0.3 by norm_num,
    atan2_zero_right 0.3 (by norm_num), zero_mul, abs_zero]

theorem c8_depth_eq : calculateSquatDepth c8Bad = calculateSquatDepth c8Good := by
  have hB23 : c8Bad 23 = { x := 0.5, y := 1.0, z := 0, visibility := 1 } := rfl
  have hB25 : c8Bad 25 = { x := 0.5, y := 0.3, z := 0, visibility := 1 } := rfl
  have hG23 : c8Good 23 = { x := 0.5, y := 1.0, z := 0, visibility := 1 } := rfl
  have hG25 : c8Good 25 = { x := 0.5, y := 0.3, z := 0, visibility := 1 } := rfl
  simp only [calculateSquatDepth, hB23, hB25, hG23, hG25]

theorem c8Good_depth : calculateSquatDepth c8Good = 70 := by
  have hG23 : c8Good 23 = { x := 0.5, y := 1.0, z := 0, visibility := 1 } := rfl
  have hG25 : c8Good 25 = { x := 0.5, y := 0.3, z := 0, visibility := 1 } := rfl
  simp only [calculateSquatDepth, hG23, hG25]
  rw [abs_of_nonneg (by norm_num : (0 : ℝ) ≤ 1.0 - 0.3)]
  norm_num [min_def]

theorem c8_sym_eq : calculateBilateralSymmetry c8Bad = calculateBilateralSymmetry c8Good := by
  have h11 : c8Bad 11 = c8Good 11 := rfl
  have h12 : c8Bad 12 = c8Good 12 := rfl
  have h13 : c8Bad 13 = c8Good 13 := rfl
  have h14 : c8Bad 14 = c8Good 14 := rfl
  have h15 : c8Bad 15 = c8Good 15 := rfl
  have h16 : c8Bad 16 = c8Good 16 := rfl
  have h23 : c8Bad 23 = c8Good 23 := rfl
  have h24 : c8Bad 24 = c8Good 24 := rfl
  have h25 : c8Bad 25 = c8Good 25 := rfl
  have h26 : c8Bad 26 = c8Good 26 := rfl
  have h27y : (c8Bad 27).y = (c8Good 27).y := rfl
  have h28 : c8Bad 28 = c8Good 28 := rfl
  simp only [calculateBilateralSymmetry, List.zip_cons_cons, List.zip_nil_right,
    List.foldl_cons, List.foldl_nil, List.length_cons, List.length_nil, h11, h12, h13, h14,
    h15, h16, h23, h24, h25, h26, h27y, h28]

theorem c8Good_sym : calculateBilateralSymmetry c8Good = 1 := by
  have h11 : c8Good 11 = { x := 0.8, y := 1.0, z := 0, visibility := 1 } := rfl
  have h12 : c8Good 12 = { x := 0.2, y := 1.0, z := 0, visibility := 1 } := rfl
  have h13 : c8Good 13 = { x := 0, y := 0, z := 0, visibility := 1 } := rfl
  have h14 : c8Good 14 = { x := 0, y := 0, z := 0, visibility := 1 } := rfl
  have h15 : c8Good 15 = { x := 0, y := 0, z := 0, visibility := 1 } := rfl
  have h16 : c8Good 16 = { x := 0, y := 0, z := 0, visibility := 1 } := rfl
  have h23 : c8Good 23 = { x := 0.5, y := 1.0, z := 0, visibility := 1 } := rfl
  have h24 : c8Good 24 = { x := 0.5, y := 1.0, z := 0, visibility := 1 } := rfl
  have h25 : c8Good 25 = { x := 0.5, y := 0.3, z := 0, visibility := 1 } := rfl
  have h26 : c8Good 26 = { x := 0.5, y := 0.3, z := 0, visibility := 1 } := rfl
  have h27 : c8Good 27 = { x := 0.5, y := 0.3, z := 0, visibility := 1 } := rfl
  have h28 : c8Good 28 = { x := 0.5, y := 0.3, z := 0, visibility := 1 } := rfl
  simp only [calculateBilateralSymmetry, List.zip_cons_cons, List.zip_nil_right,
    List.foldl_cons, List.foldl_nil, h11, h12, h13, h14, h15, h16, h23, h24, h25, h26,
    h27, h28]
  norm_num

theorem c8_knee_valgus_amended_witness :
    analyzeKneeAlignment c8Bad > 15 ∧
    analyzeKneeAlignment c8Good ≤ 8 ∧
    calculateBackAngle c8Bad = calculateBackAngle c8Good ∧
    calculateSquatDepth c8Bad = calculateSquatDepth c8Good ∧
    calculateBilateralSymmetry c8Bad = calculateBilateralSymmetry c8Good ∧
    "Knees caving inward - risk of injury" ∈
      (analyzeExercise [] c8Bad "squat").1.criticalErrors :=
  ⟨by rw [c8Bad_valgus]; norm_num, by rw [c8Good_valgus]; norm_num,
    c8_back_eq, c8_depth_eq, c8_sym_eq,
    (c8_knee_valgus_amended [] c8Bad c8Good (by rw [c8Bad_valgus]; norm_num)
      (by rw [c8Good_valgus]; norm_num) c8_back_eq c8_depth_eq c8_sym_eq).1⟩

/-- Claim C8 counterexample: with the good-form frame collecting all four
strengths its raw score 120 clamps to 100, while the bad frame (valgus 20,
otherwise identical measures) scores 90 — a gap of 10, not ≥ 25, refuting the
claim's unconditional "score decreases by at least 25". -/
theorem c8_knee_valgus_cex :
    analyzeKneeAlignment c8Bad > 15 ∧
    analyzeKneeAlignment c8Good ≤ 8 ∧
    calculateBackAngle c8Bad = calculateBackAngle c8Good ∧
    calculateSquatDepth c8Bad = calculateSquatDepth c8Good ∧
    calculateBilateralSymmetry c8Bad = calculateBilateralSymmetry c8Good ∧
    (analyzeExercise [] c8Bad "squat").1.score = 90 ∧
    (analyzeExercise [] c8Good "squat").1.score = 100 ∧
    ¬((analyzeExercise [] c8Bad "squat").1.score ≤
        (analyzeExercise [] c8Good "squat").1.score - 25) := by
  have hvB : analyzeKneeAlignment c8Bad = 20 := c8Bad_valgus
  have hvG : analyzeKneeAlignment c8Good = 0 := c8Good_valgus
  have hbackB : calculateBackAngle c8Bad = 0 := by rw [c8_back_eq, c8Good_back]
  have hdepthB : calculateSquatDepth c8Bad = 70 := by rw [c8_depth_eq, c8Good_depth]
  have hsymB : calculateBilateralSymmetry c8Bad = 1 := by rw [c8_sym_eq, c8Good_sym]
  have hGoodScore : (analyzeExercise [] c8Good "squat").1.score = 100 := by
    rw [analyzeExercise_squat_eq]
    simp only [analyzeSquat, calculateSquatBiomechanics, hvG, c8Good_back, c8Good_depth,
      c8Good_sym]
    rw [if_neg (by norm_num : ¬(0 : ℝ) > 15), if_neg (by norm_num : ¬(0 : ℝ) > 8),
      if_neg (by norm_num : ¬(0 : ℝ) > 45), if_neg (by norm_num : ¬(0 : ℝ) > 30),
      if_neg (by norm_num : ¬(70 : ℝ) < 70), if_neg (by norm_num : ¬(1 : ℝ) < 0.85)]
    decide
  have hBadScore : (analyzeExercise [] c8Bad "squat").1.score = 90 := by
    rw [analyzeExercise_squat_eq]
    simp only [analyzeSquat, calculateSquatBiomechanics, hvB, hbackB, hdepthB, hsymB]
    rw [if_pos (by norm_num : (20 : ℝ) > 15),
      if_neg (by norm_num : ¬(0 : ℝ) > 45), if_neg (by norm_num : ¬(0 : ℝ) > 30),
      if_neg (by norm_num : ¬(70 : ℝ) < 70), if_neg (by norm_num : ¬(1 : ℝ) < 0.85)]
    decide
  refine ⟨by rw [hvB]; norm_num, by rw [hvG]; norm_num, c8_back_eq, c8_depth_eq, c8_sym_eq,
    hBadScore, hGoodScore, ?_⟩
  rw [hBadScore, hGoodScore]
  decide

end Forma
